import Mathlib

/-
Verification of the client-side synchronization core of the poker frontend
(src/components/PokerTable.js and src/services/apiService.js), as a shallow
embedding: the WebSocket onMessage merge, the polling fallback, the
pre-action queue resolution, the hand-result popup sequencer, and the
channel close / reconnect pipeline.
-/

namespace Poker

/-- The polymorphic `cards` field of a player record: `null`/`undefined`,
a bare array of card strings, or a wrapper object `\x7bcards: [...]\x7d`. -/
inductive CardsField
  | absent
  | list (cs : List String)
  | wrapped (cs : List String)
  deriving DecidableEq

/-- JS truthiness of `player.cards`: arrays and objects are truthy even when
empty; only `null`/`undefined` is falsy. -/
def CardsField.truthy : CardsField → Bool
  | .absent => false
  | .list _ => true
  | .wrapped _ => true

/-- The onMessage empty-cards test on an inbound player:
`!newPlayer.cards || (Array.isArray(newPlayer.cards) && newPlayer.cards.length === 0)
|| (newPlayer.cards.cards && newPlayer.cards.cards.length === 0)`. -/
def CardsField.inboundEmpty : CardsField → Bool
  | .absent => true
  | .list cs => cs.isEmpty
  | .wrapped cs => cs.isEmpty

/-- Non-empty private cards actually held (a non-empty bare list or wrapper). -/
def CardsField.nonempty : CardsField → Bool
  | .absent => false
  | .list cs => !cs.isEmpty
  | .wrapped cs => !cs.isEmpty

/-- One entry of `game.players`: `id` is the player-game record id (used by the
card merge), `playerId` is `p.player.id` (compared against `game.current_player.id`),
`userId`/`username` are `p.player.user.*`. Money amounts are the already-parsed
numbers (`parseFloat(x || 0) || 0`). -/
structure GamePlayer where
  id : Nat
  playerId : Nat
  userId : Nat
  username : String
  stack : Int
  currentBet : Int
  isActive : Bool
  cashedOut : Bool
  readyForNextHand : Bool
  cards : CardsField
  deriving DecidableEq

/-- One winner entry inside `winner_info.winners`. -/
structure Winner where
  playerName : String
  handName : Option String
  deriving DecidableEq

/-- The `winner_info` payload: winners, pot amount and hand type. -/
structure WinnerInfo where
  winners : List Winner
  potAmount : Int
  wtype : String
  deriving DecidableEq

/-- A full game snapshot as delivered by the server. `players` is optional:
JS guards test `game.players` for truthiness. `bigBlind` is `game.table?.big_blind`
(0 when the table is absent), `currentPlayerId` is `game.current_player?.id`. -/
structure Game where
  id : Nat
  status : String
  phase : String
  pot : Int
  currentBet : Int
  currentPlayerId : Option Nat
  handCount : Nat
  winnerInfo : Option WinnerInfo
  bigBlind : Int
  players : Option (List GamePlayer)
  deriving DecidableEq

/-- The locally stored user record (`localStorage` "user"): either field may
be missing. -/
structure CurrentUser where
  id : Option Nat
  username : Option String
  deriving DecidableEq

/-- The hand-result popup payload built by onMessage / the poll restore. -/
structure HandResult where
  winners : List Winner
  potAmount : Int
  wtype : String
  handNumber : Nat
  allPlayers : List GamePlayer
  deriving DecidableEq

/-- The component state the reconciliation reads and writes: `game`,
`showHandResults` and `currentHandResult`. -/
structure ClientState where
  game : Option Game
  showHandResults : Bool
  currentHandResult : Option HandResult
  deriving DecidableEq

/-- Per-player card carry-forward of the onMessage merge: find the player with
the same record id in the current state; if its cards are truthy and the
inbound player's cards are empty/absent, keep the current cards, else take
the inbound player unchanged. -/
def mergePlayer (cps : List GamePlayer) (np : GamePlayer) : GamePlayer :=
  match cps.find? (fun p => p.id == np.id) with
  | some ep =>
      if ep.cards.truthy && np.cards.inboundEmpty then { np with cards := ep.cards }
      else np
  | none => np

/-- `updatedGame.players = updatedGame.players.map(...)` of the onMessage merge. -/
def mergeCards (cps nps : List GamePlayer) : List GamePlayer :=
  nps.map (mergePlayer cps)

/-- The merged game of the push path: the inbound snapshot with the card
carry-forward applied when both sides carry player lists. -/
def mergeSnapshot (cur g : Game) : Game :=
  { g with players :=
      match g.players, cur.players with
      | some nps, some cps => some (mergeCards cps nps)
      | nps, _ => nps }

/-- `handJustCompleted`: inbound winner info present, and the local one absent
or different by value (the JSON.stringify comparison). -/
def handJustCompleted (cur merged : Game) : Bool :=
  merged.winnerInfo.isSome &&
    (cur.winnerInfo.isNone || decide (merged.winnerInfo ≠ cur.winnerInfo))

/-- `newHandStarted`: `updatedGame.hand_count > (currentGame.hand_count || 0)`. -/
def newHandStarted (cur merged : Game) : Bool :=
  decide (merged.handCount > cur.handCount)

/-- `handNumber: updatedGame.hand_count || currentGame.hand_count || 0`. -/
def entryHandNumber (cur merged : Game) : Nat :=
  if merged.handCount ≠ 0 then merged.handCount else cur.handCount

/-- The history entry built from `winner_info` (`type || 'Unknown'`). -/
def winnerEntry (wi : WinnerInfo) (handNumber : Nat) (allPlayers : List GamePlayer) :
    HandResult :=
  { winners := wi.winners
    potAmount := wi.potAmount
    wtype := if wi.wtype == "" then "Unknown" else wi.wtype
    handNumber := handNumber
    allPlayers := allPlayers }

/-- The `newHistoryEntry` of the push path. -/
def completionEntry (cur merged : Game) (wi : WinnerInfo) : HandResult :=
  winnerEntry wi (entryHandNumber cur merged) (merged.players.getD [])

/-- `players?.find(player => currentUserInfo && (id match || username match))`. -/
def userMatches (u : CurrentUser) (p : GamePlayer) : Bool :=
  (match u.id with | some i => i == p.userId | none => false) ||
  (match u.username with | some n => n == p.username | none => false)

/-- Viewer lookup used by the popup logic (optional chaining on players). -/
def findViewer (u : Option CurrentUser) (ps : Option (List GamePlayer)) :
    Option GamePlayer :=
  match ps, u with
  | some l, some user => l.find? (userMatches user)
  | _, _ => none

/-- `currentPlayerGame?.ready_for_next_hand || false`. -/
def viewerReady (v : Option GamePlayer) : Bool :=
  match v with
  | some p => p.readyForNextHand
  | none => false

/-- `currentPlayerGame?.cashed_out || false`. -/
def viewerCashed (v : Option GamePlayer) : Bool :=
  match v with
  | some p => p.cashedOut
  | none => false

/-- The popup display decision: `shouldShowPopup || (isSplitPot && !showHandResults)`,
with `shouldShowPopup = (!showHandResults || (currentHandResult &&
currentHandResult.handNumber !== newHistoryEntry.handNumber)) && !ready && !cashedOut`. -/
def popupDecision (ready cashed showing : Bool) (curHR : Option HandResult)
    (entry : HandResult) : Bool :=
  let isSplitPot := decide (entry.winners.length > 1)
  let shouldShowPopup :=
    (!showing ||
      (match curHR with
       | some chr => decide (chr.handNumber ≠ entry.handNumber)
       | none => false)) && !ready && !cashed
  shouldShowPopup || (isSplitPot && !showing)

/-- Observable side effects of one inbound delivery. -/
inductive WsEffect
  | summaryRedirect
  | popup (hr : HandResult)
  | finishedRedirect
  deriving DecidableEq

/-- The popup outcome of one push delivery: the new hand result to display,
if the completion guard fires and the decision is positive. -/
def popupResult (user : Option CurrentUser) (st : ClientState) (cur g : Game) :
    Option HandResult :=
  let merged := mergeSnapshot cur g
  match merged.winnerInfo with
  | some wi =>
      if handJustCompleted cur merged || newHandStarted cur merged then
        let viewer := findViewer user merged.players
        let entry := completionEntry cur merged wi
        if popupDecision (viewerReady viewer) (viewerCashed viewer)
            st.showHandResults st.currentHandResult entry
        then some entry else none
      else none
  | none => none

/-- The game-finished check: `status === 'FINISHED' && players && players.every(cashed_out)
&& players.length > 0` triggers the completed-game message and summary navigation. -/
def finishedEffects (merged : Game) : List WsEffect :=
  match merged.players with
  | some ps =>
      if merged.status == "FINISHED" && ps.all (fun p => p.cashedOut) &&
          decide (0 < ps.length)
      then [.finishedRedirect] else []
  | none => []

/-- One full-snapshot delivery on the push (WebSocket) path: the
`setGame(currentGame => ...)` updater of onMessage. -/
def wsApplySnapshot (user : Option CurrentUser) (g : Game) (st : ClientState) :
    ClientState × List WsEffect :=
  match st.game with
  | none => ({ st with game := some g }, [])
  | some cur =>
      let merged := mergeSnapshot cur g
      match popupResult user st cur g with
      | some entry =>
          ({ game := some merged, showHandResults := true,
             currentHandResult := some entry },
           .popup entry :: finishedEffects merged)
      | none => ({ st with game := some merged }, finishedEffects merged)

/-- An inbound WebSocket envelope: the summary notification or a snapshot. -/
inductive WsData
  | summaryAvailable
  | snapshot (g : Game)
  deriving DecidableEq

/-- The onMessage callback: `game_summary_available` only schedules the
summary redirect; everything else goes through the snapshot path. -/
def wsMessage (user : Option CurrentUser) (data : WsData) (st : ClientState) :
    ClientState × List WsEffect :=
  match data with
  | .summaryAvailable => (st, [.summaryRedirect])
  | .snapshot g => wsApplySnapshot user g st

/-- One delivery on the poll path: `setGame(updatedGame)` wholesale, plus the
popup-restore when the phase is between hands, winner info is present, no popup
is showing, and the viewer is neither ready nor cashed out. -/
def pollUpdate (user : Option CurrentUser) (g : Game) (st : ClientState) :
    ClientState × List WsEffect :=
  let base : ClientState := { st with game := some g }
  match g.winnerInfo with
  | some wi =>
      if g.phase == "WAITING_FOR_PLAYERS" && !st.showHandResults then
        let viewer := findViewer user g.players
        if !(viewerReady viewer) && !(viewerCashed viewer) then
          let restored := winnerEntry wi
            (if g.handCount ≠ 0 then g.handCount else 1) (g.players.getD [])
          ({ base with showHandResults := true, currentHandResult := some restored },
           [.popup restored])
        else (base, [])
      else (base, [])
  | none => (base, [])

/-- Number of popup effects in a delivery's effect list. -/
def countPopups (l : List WsEffect) : Nat :=
  (l.filter fun e => match e with | .popup _ => true | _ => false).length

/-- Number of finished-game redirect effects in a delivery's effect list. -/
def countFinished (l : List WsEffect) : Nat :=
  (l.filter fun e => match e with | .finishedRedirect => true | _ => false).length

/-- The pre-action kinds the interface can queue. -/
inductive PreActionKind
  | checkFold | call | check | fold | bet | raise
  deriving DecidableEq

/-- The action strings passed to `handleAction`. -/
inductive ActionType
  | FOLD | CHECK | CALL | BET | RAISE
  deriving DecidableEq

/-- One submitted action: its type and, for bets and raises, the amount. -/
structure Submitted where
  action : ActionType
  amount : Option Int
  deriving DecidableEq

/-- The body of `executePreAction`: validity is computed from the betting
parameters supplied at resolution time (`currentBet = parseFloat(game.current_bet)`,
`playerBet = currentPlayer.current_bet`, `minBet = game.table?.big_blind`,
`minRaise = Math.max(currentBet * 2, currentBet + minBet)`); an invalid
pre-action falls through every branch and submits nothing. -/
def executePreAction (pa : PreActionKind) (amt : Int)
    (currentBet playerBet minBet : Int) : Option Submitted :=
  let canCheck := currentBet == playerBet
  let minRaise := max (currentBet * 2) (currentBet + minBet)
  match pa with
  | .checkFold => some (if canCheck then ⟨.CHECK, none⟩ else ⟨.FOLD, none⟩)
  | .call => if !canCheck then some ⟨.CALL, none⟩ else none
  | .check => if canCheck then some ⟨.CHECK, none⟩ else none
  | .fold => some ⟨.FOLD, none⟩
  | .bet => if currentBet == 0 && decide (amt ≥ minBet) then some ⟨.BET, some amt⟩
            else none
  | .raise => if currentBet > 0 && decide (amt ≥ minRaise) then some ⟨.RAISE, some amt⟩
              else none

/-- The viewer lookup of the pre-action effect: first by user id when present,
then by username when the first stage found nothing. -/
def findCurrentPlayerTwoStage (u : CurrentUser) (ps : List GamePlayer) :
    Option GamePlayer :=
  let byId := match u.id with
    | some i => ps.find? (fun p => p.userId == i)
    | none => none
  match byId with
  | some p => some p
  | none =>
      match u.username with
      | some n => ps.find? (fun p => p.username == n)
      | none => none

/-- The turn-arrival useEffect: when the viewer is found, it is their turn,
a pre-action is queued and the viewer has not cashed out, resolve the queued
action against the current game and clear the queue; otherwise leave the
queue untouched and submit nothing. Returns (submitted action, new queue). -/
def turnArrivalStep (user : Option CurrentUser) (g : Game)
    (queue : Option (PreActionKind × Int)) :
    Option Submitted × Option (PreActionKind × Int) :=
  match g.players with
  | none => (none, queue)
  | some ps =>
      match user with
      | none => (none, queue)
      | some u =>
          match findCurrentPlayerTwoStage u ps with
          | none => (none, queue)
          | some cp =>
              let isMyTurn := match g.currentPlayerId with
                | some cid => cid == cp.playerId
                | none => false
              match queue with
              | some (k, a) =>
                  if isMyTurn && !cp.cashedOut then
                    (executePreAction k a g.currentBet cp.currentBet g.bigBlind, none)
                  else (none, some (k, a))
              | none => (none, none)

/-- Observable side effects of the channel-closure pipeline. -/
inductive CloseEffect
  | messageShown (msg : String)
  | navToTables
  | cancelReconnect
  | scheduleReconnect (delayMs : Nat)
  deriving DecidableEq

/-- The apiService `socket.onclose` switch: the error message handed to the
error callback for each close code, when any. -/
def closeErrorMessage (code : Nat) : Option String :=
  if code = 4001 then some "Authentication failed"
  else if code = 4003 then some "Permission denied"
  else if code = 4004 then some "Game not found"
  else if code = 1006 then some "Connection lost"
  else none

/-- The component's onError callback: "Game not found" shows the redirect
message and schedules navigation; every other message shows a connection
error, cancels any pending reconnect timer, and schedules a reconnect after
3000 ms. -/
def onErrorEffects (msg : String) : List CloseEffect :=
  if msg = "Game not found" then
    [.messageShown "Game no longer exists. Redirecting to tables...", .navToTables]
  else
    [.messageShown ("Connection error: " ++ msg), .cancelReconnect,
     .scheduleReconnect 3000]

/-- The component's onClose callback: codes other than 1000/4001/4003/4004
cancel any pending reconnect and schedule one after 3000 ms; 4004 shows the
redirect message and schedules navigation; 1000/4001/4003 do nothing. -/
def onCloseEffects (code : Nat) : List CloseEffect :=
  if code ≠ 1000 ∧ code ≠ 4001 ∧ code ≠ 4003 ∧ code ≠ 4004 then
    [.cancelReconnect, .scheduleReconnect 3000]
  else if code = 4004 then
    [.messageShown "Game no longer exists. Redirecting to tables...", .navToTables]
  else []

/-- One channel closure end to end: the apiService onclose handler first
invokes the error callback when the switch maps the code to a message, then
invokes the close callback with the event. -/
def closurePipeline (code : Nat) : List CloseEffect :=
  (match closeErrorMessage code with
   | some m => onErrorEffects m
   | none => []) ++ onCloseEffects code

/-- Number of reconnect schedulings in a closure's effect list. -/
def countReconnects (l : List CloseEffect) : Nat :=
  (l.filter fun e => match e with | .scheduleReconnect _ => true | _ => false).length

/-- Number of navigation-away side effects in a closure's effect list. -/
def countNavs (l : List CloseEffect) : Nat :=
  (l.filter fun e => match e with | .navToTables => true | _ => false).length

/-- A created WebSocket handle, identified by its URL. -/
structure SocketHandle where
  url : String
  deriving DecidableEq

/-- The outcome of `connectToGameSocket`: the returned value, the error
callback invocations, and the number of WebSocket objects created. -/
structure ConnectResult where
  socket : Option SocketHandle
  errorCalls : List String
  socketsCreated : Nat
  deriving DecidableEq

/-- `connectToGameSocket`'s token guard and socket creation: with no stored
access token it invokes the error callback (when supplied) with
"No authentication token" and returns null without creating a socket;
with a token it creates the socket on the game URL. -/
def connectToGameSocket (token : Option String) (wsBaseUrl gameId : String)
    (hasErrorCb : Bool) : ConnectResult :=
  match token with
  | none =>
      { socket := none
        errorCalls := if hasErrorCb then ["No authentication token"] else []
        socketsCreated := 0 }
  | some t =>
      let wsUrl := wsBaseUrl ++ "/game/" ++ gameId ++ "/?token=" ++ t
      { socket := some ⟨wsUrl⟩, errorCalls := [], socketsCreated := 1 }

/- Helper lemmas about the merge and the push-path step. -/

lemma mergeSnapshot_winnerInfo (cur g : Game) :
    (mergeSnapshot cur g).winnerInfo = g.winnerInfo := rfl

lemma mergeSnapshot_handCount (cur g : Game) :
    (mergeSnapshot cur g).handCount = g.handCount := rfl

lemma mergeSnapshot_status (cur g : Game) :
    (mergeSnapshot cur g).status = g.status := rfl

lemma mergePlayer_cashedOut (cps : List GamePlayer) (np : GamePlayer) :
    (mergePlayer cps np).cashedOut = np.cashedOut := by
  unfold mergePlayer
  cases cps.find? (fun p => p.id == np.id) with
  | none => rfl
  | some ep =>
      dsimp only
      split
      · rfl
      · rfl

lemma mergeCards_all_cashedOut (cps nps : List GamePlayer) :
    (mergeCards cps nps).all (fun p => p.cashedOut) =
      nps.all (fun p => p.cashedOut) := by
  unfold mergeCards
  induction nps with
  | nil => rfl
  | cons np t ih => simp [List.all_cons, mergePlayer_cashedOut, ih]

lemma mergeCards_length (cps nps : List GamePlayer) :
    (mergeCards cps nps).length = nps.length := by
  simp [mergeCards]

lemma finishedEffects_merge (cur g : Game) :
    finishedEffects (mergeSnapshot cur g) = finishedEffects g := by
  unfold finishedEffects mergeSnapshot
  cases hg : g.players with
  | none => cases cur.players <;> rfl
  | some nps =>
      cases cur.players with
      | none => rfl
      | some cps =>
          simp [mergeCards_all_cashedOut, mergeCards_length]

lemma countPopups_finishedEffects (m : Game) :
    countPopups (finishedEffects m) = 0 := by
  unfold finishedEffects countPopups
  cases m.players with
  | none => rfl
  | some ps =>
      dsimp only
      split
      · rfl
      · rfl

lemma countPopups_cons_popup (e : HandResult) (l : List WsEffect) :
    countPopups (.popup e :: l) = countPopups l + 1 := by
  simp [countPopups, List.filter]

lemma countFinished_cons_popup (e : HandResult) (l : List WsEffect) :
    countFinished (.popup e :: l) = countFinished l := by
  simp [countFinished, List.filter]

lemma wsMessage_snapshot (user : Option CurrentUser) (g : Game) (st : ClientState) :
    wsMessage user (.snapshot g) st = wsApplySnapshot user g st := rfl

lemma wsApplySnapshot_eq_some (user : Option CurrentUser) (g : Game)
    (st : ClientState) (cur : Game) (entry : HandResult)
    (hgame : st.game = some cur) (hp : popupResult user st cur g = some entry) :
    wsApplySnapshot user g st =
      ({ game := some (mergeSnapshot cur g), showHandResults := true,
         currentHandResult := some entry },
       .popup entry :: finishedEffects (mergeSnapshot cur g)) := by
  unfold wsApplySnapshot
  simp only [hgame, hp]

lemma wsApplySnapshot_eq_none (user : Option CurrentUser) (g : Game)
    (st : ClientState) (cur : Game)
    (hgame : st.game = some cur) (hp : popupResult user st cur g = none) :
    wsApplySnapshot user g st =
      ({ st with game := some (mergeSnapshot cur g) },
       finishedEffects (mergeSnapshot cur g)) := by
  unfold wsApplySnapshot
  simp only [hgame, hp]

lemma wsApplySnapshot_game (user : Option CurrentUser) (g : Game)
    (st : ClientState) (cur : Game) (hgame : st.game = some cur) :
    (wsApplySnapshot user g st).1.game = some (mergeSnapshot cur g) := by
  cases hp : popupResult user st cur g with
  | none => rw [wsApplySnapshot_eq_none user g st cur hgame hp]
  | some entry => rw [wsApplySnapshot_eq_some user g st cur entry hgame hp]

lemma popupResult_of_event (user : Option CurrentUser) (st : ClientState)
    (cur g : Game) (wi : WinnerInfo)
    (hwi : g.winnerInfo = some wi)
    (hev : (handJustCompleted cur (mergeSnapshot cur g) ||
            newHandStarted cur (mergeSnapshot cur g)) = true) :
    popupResult user st cur g =
      if popupDecision
          (viewerReady (findViewer user (mergeSnapshot cur g).players))
          (viewerCashed (findViewer user (mergeSnapshot cur g).players))
          st.showHandResults st.currentHandResult
          (completionEntry cur (mergeSnapshot cur g) wi)
      then some (completionEntry cur (mergeSnapshot cur g) wi) else none := by
  have hmw : (mergeSnapshot cur g).winnerInfo = some wi := by
    rw [mergeSnapshot_winnerInfo, hwi]
  unfold popupResult
  simp only [hmw, hev, if_true]

lemma popupResult_self (user : Option CurrentUser) (st : ClientState)
    (cur g : Game) :
    popupResult user st (mergeSnapshot cur g) g = none := by
  have h1 : handJustCompleted (mergeSnapshot cur g)
      (mergeSnapshot (mergeSnapshot cur g) g) = false := by
    unfold handJustCompleted
    rw [mergeSnapshot_winnerInfo, mergeSnapshot_winnerInfo]
    cases g.winnerInfo <;> simp
  have h2 : newHandStarted (mergeSnapshot cur g)
      (mergeSnapshot (mergeSnapshot cur g) g) = false := by
    unfold newHandStarted
    rw [mergeSnapshot_handCount, mergeSnapshot_handCount]
    simp
  unfold popupResult
  cases hw : (mergeSnapshot (mergeSnapshot cur g) g).winnerInfo with
  | none => simp [hw]
  | some wi => simp [hw, h1, h2]

lemma find_self (ps : List GamePlayer) (np : GamePlayer) (hmem : np ∈ ps)
    (hnodup : (ps.map (fun p => p.id)).Nodup) :
    ps.find? (fun p => p.id == np.id) = some np := by
  induction ps with
  | nil => cases hmem
  | cons p t ih =>
      rw [List.map_cons, List.nodup_cons] at hnodup
      rcases List.mem_cons.mp hmem with h | h
      · subst h
        rw [List.find?_cons_of_pos _ (by simp)]
      · by_cases hid : p.id = np.id
        · exact absurd (hid ▸ List.mem_map.mpr ⟨np, h, rfl⟩) hnodup.1
        · rw [List.find?_cons_of_neg _ (by simp [hid])]
          exact ih h hnodup.2

lemma mergePlayer_mem_self (ps : List GamePlayer) (np : GamePlayer)
    (hmem : np ∈ ps) (hnodup : (ps.map (fun p => p.id)).Nodup) :
    mergePlayer ps np = np := by
  unfold mergePlayer
  rw [find_self ps np hmem hnodup]
  dsimp only
  split
  · rfl
  · rfl

lemma mergeCards_self (ps : List GamePlayer)
    (hnodup : (ps.map (fun p => p.id)).Nodup) :
    mergeCards ps ps = ps := by
  unfold mergeCards
  have hgen : ∀ l : List GamePlayer, (∀ np ∈ l, np ∈ ps) →
      l.map (mergePlayer ps) = l := by
    intro l hl
    induction l with
    | nil => rfl
    | cons a t ih =>
        rw [List.map_cons,
          mergePlayer_mem_self ps a (hl a (List.mem_cons_self a t)) hnodup,
          ih (fun np h => hl np (List.mem_cons_of_mem a h))]
  exact hgen ps (fun _ h => h)

lemma mergeSnapshot_self (g : Game)
    (hnodup : ((g.players.getD []).map (fun p => p.id)).Nodup) :
    mergeSnapshot g g = g := by
  obtain ⟨i, s, ph, pot, cb, cpid, hc, wi, bb, players⟩ := g
  cases players with
  | none => rfl
  | some ps =>
      simp only [Option.getD] at hnodup
      simp [mergeSnapshot, mergeCards_self ps hnodup]

lemma pollUpdate_game (user : Option CurrentUser) (g : Game) (st : ClientState) :
    (pollUpdate user g st).1.game = some g := by
  unfold pollUpdate
  cases g.winnerInfo with
  | none => rfl
  | some wi =>
      dsimp only
      split
      · split
        · rfl
        · rfl
      · rfl

/-- Concrete instance for claim C1: a local state holding the viewer's cards
and an inbound snapshot that omits them. -/
def c1Viewer : CurrentUser := { id := some 1, username := some "alice" }

/-- Local player of the C1 instance, with known hole cards. -/
def c1LocalPlayer : GamePlayer :=
  { id := 10, playerId := 100, userId := 1, username := "alice", stack := 500,
    currentBet := 0, isActive := true, cashedOut := false,
    readyForNextHand := false, cards := .list ["AS", "KD"] }

/-- Inbound copy of the same player with the cards masked to an empty list. -/
def c1InboundPlayer : GamePlayer := { c1LocalPlayer with cards := CardsField.list [] }

/-- Local game of the C1 instance. -/
def c1LocalGame : Game :=
  { id := 5, status := "PLAYING", phase := "FLOP", pot := 30, currentBet := 10,
    currentPlayerId := some 100, handCount := 2, winnerInfo := none,
    bigBlind := 10, players := some [c1LocalPlayer] }

/-- Inbound snapshot of the C1 instance: identical but with masked cards. -/
def c1Inbound : Game := { c1LocalGame with players := some [c1InboundPlayer] }

/-- Client state of the C1 instance. -/
def c1State : ClientState :=
  { game := some c1LocalGame, showHandResults := false, currentHandResult := none }

/-- Claim C1, counterexample: the poll path and the push path are not the same
function on an inbound snapshot — on a local state whose player holds cards
["AS","KD"] and an inbound snapshot with those cards empty, the poll path
wholesale-replaces the game (dropping the cards) while the push path performs
the carry-forward merge, so the resulting game states differ. -/
theorem push_poll_paths_differ :
    (pollUpdate (some c1Viewer) c1Inbound c1State).1.game ≠
    (wsMessage (some c1Viewer) (.snapshot c1Inbound) c1State).1.game := by
  decide

/-- Claim C1, amended: only the push path performs the private-card
carry-forward merge; the poll path replaces the local game wholesale with the
inbound snapshot. Still, delivering equivalent payloads poll-then-push versus
push-then-poll against the same local state yields the identical final game
state (the inbound snapshot itself, participant ids being unique), because
whichever path runs last determines the game. -/
theorem push_poll_order_insensitive (user : Option CurrentUser)
    (st : ClientState) (g : Game)
    (hnodup : ((g.players.getD []).map (fun p => p.id)).Nodup) :
    (wsMessage user (.snapshot g) (pollUpdate user g st).1).1.game =
    (pollUpdate user g (wsMessage user (.snapshot g) st).1).1.game := by
  rw [pollUpdate_game user g (wsMessage user (.snapshot g) st).1]
  rw [wsMessage_snapshot,
    wsApplySnapshot_game user g (pollUpdate user g st).1 g (pollUpdate_game user g st),
    mergeSnapshot_self g hnodup]

/-- Claim C1, witness for the amended statement at the concrete C1 instance. -/
theorem push_poll_order_insensitive_witness :
    (wsMessage (some c1Viewer) (.snapshot c1Inbound)
        (pollUpdate (some c1Viewer) c1Inbound c1State).1).1.game =
    (pollUpdate (some c1Viewer) c1Inbound
        (wsMessage (some c1Viewer) (.snapshot c1Inbound) c1State).1).1.game :=
  push_poll_order_insensitive (some c1Viewer) c1State c1Inbound (by decide)

/-- Claim C2: for a participant present in both sides — found in the local
players by record id — whose local cards are non-empty while the inbound
cards are empty or absent, the merge keeps the local cards and takes every
other field from the inbound player; the merged player list is the inbound
list mapped through this per-player merge. -/
theorem card_carry_forward (cps nps : List GamePlayer) (np ep : GamePlayer)
    (hmem : np ∈ nps)
    (hfind : cps.find? (fun p => p.id == np.id) = some ep)
    (hne : ep.cards.nonempty = true)
    (hemp : np.cards.inboundEmpty = true) :
    mergePlayer cps np = { np with cards := ep.cards } ∧
    { np with cards := ep.cards } ∈ mergeCards cps nps := by
  have ht : ep.cards.truthy = true := by
    cases h : ep.cards <;>
      simp [CardsField.nonempty, CardsField.truthy, h] at hne ⊢
  have hmp : mergePlayer cps np = { np with cards := ep.cards } := by
    unfold mergePlayer
    rw [hfind]
    simp [ht, hemp]
  constructor
  · exact hmp
  · unfold mergeCards
    rw [← hmp]
    exact List.mem_map_of_mem (mergePlayer cps) hmem

/-- Local player of the C2 witness instance, holding ["AS","KD"]. -/
def c2Local : GamePlayer :=
  { id := 11, playerId := 101, userId := 3, username := "carol", stack := 250,
    currentBet := 5, isActive := true, cashedOut := false,
    readyForNextHand := false, cards := .list ["AS", "KD"] }

/-- Inbound copy of the C2 player with empty cards. -/
def c2Inbound : GamePlayer := { c2Local with cards := CardsField.list [] }

/-- Claim C2, witness at the concrete instance. -/
theorem card_carry_forward_witness :
    mergePlayer [c2Local] c2Inbound = { c2Inbound with cards := c2Local.cards } ∧
    { c2Inbound with cards := c2Local.cards } ∈ mergeCards [c2Local] [c2Inbound] :=
  card_carry_forward [c2Local] [c2Inbound] c2Inbound c2Local (by decide)
    (by decide) (by decide) (by decide)

/-- Claim C3: at turn-arrival — the viewer found among the players, holder of
the turn, neither folded nor cashed out, with a pre-action queued — the queued
action is resolved against the betting parameters of the current game (its
current bet, the viewer's current bet, the table's big blind), and the queue
is cleared regardless of the outcome; in particular a queued raise whose
amount is below the current minimum raise resolves to no submission at all. -/
theorem preaction_turn_arrival (user : CurrentUser) (g : Game)
    (ps : List GamePlayer) (cp : GamePlayer) (k : PreActionKind) (a : Int)
    (hps : g.players = some ps)
    (hfind : findCurrentPlayerTwoStage user ps = some cp)
    (hturn : g.currentPlayerId = some cp.playerId)
    (hactive : cp.isActive = true)
    (hcash : cp.cashedOut = false) :
    turnArrivalStep (some user) g (some (k, a)) =
      (executePreAction k a g.currentBet cp.currentBet g.bigBlind, none) ∧
    (k = .raise →
      a < max (g.currentBet * 2) (g.currentBet + g.bigBlind) →
      (turnArrivalStep (some user) g (some (k, a))).1 = none) := by
  have hmain : turnArrivalStep (some user) g (some (k, a)) =
      (executePreAction k a g.currentBet cp.currentBet g.bigBlind, none) := by
    unfold turnArrivalStep
    simp [hps, hfind, hturn, hcash]
  refine ⟨hmain, ?_⟩
  intro hk hlt
  subst hk
  rw [hmain]
  unfold executePreAction
  simp [not_le.mpr hlt]

/-- Viewer of the C3 witness instance. -/
def c3User : CurrentUser := { id := some 2, username := some "bob" }

/-- Player of the C3 witness instance: in the hand, not cashed out, no chips
committed this street. -/
def c3Player : GamePlayer :=
  { id := 20, playerId := 200, userId := 2, username := "bob", stack := 400,
    currentBet := 0, isActive := true, cashedOut := false,
    readyForNextHand := false, cards := .absent }

/-- Game of the C3 witness instance: the current bet has risen to 50 with a
big blind of 10, so the minimum raise is 100. -/
def c3Game : Game :=
  { id := 7, status := "PLAYING", phase := "TURN", pot := 120, currentBet := 50,
    currentPlayerId := some 200, handCount := 3, winnerInfo := none,
    bigBlind := 10, players := some [c3Player] }

/-- Claim C3, witness: a raise of 20 queued before the current bet rose to 50
is silently discarded at turn-arrival — nothing submitted, queue cleared. -/
theorem preaction_turn_arrival_witness :
    turnArrivalStep (some c3User) c3Game (some (.raise, 20)) = (none, none) := by
  rw [(preaction_turn_arrival c3User c3Game [c3Player] c3Player .raise 20
    rfl (by decide) rfl rfl rfl).1]
  decide

/-- Claim C4, counterexample: a closure with terminal close code 4001
(authentication failure) does have a reconnect scheduled — by the error
callback that the apiService onclose switch invokes — contradicting the
claim that no reconnect attempt is ever scheduled for the terminal codes;
the same happens for 4003. -/
theorem close4001_schedules_reconnect :
    ¬ (countReconnects (closurePipeline 4001) = 0 ∧
       countReconnects (closurePipeline 4003) = 0) := by decide

/-- Claim C4, amended: the onClose handler never schedules a reconnect for
the terminal codes 1000/4001/4003/4004 and schedules exactly one for every
other code, but the error callback invoked during closure adds one reconnect
for 4001 and 4003 (and a second one for 1006); end to end, no reconnect is
scheduled exactly for codes 1000 and 4004. -/
theorem reconnect_schedule_policy (code : Nat) :
    countReconnects (closurePipeline code) =
      (if code = 1000 ∨ code = 4004 then 0
       else if code = 1006 then 2 else 1) ∧
    countReconnects (onCloseEffects code) =
      (if code = 1000 ∨ code = 4001 ∨ code = 4003 ∨ code = 4004 then 0 else 1) := by
  by_cases h1 : code = 1000
  · subst h1; decide
  by_cases h2 : code = 4001
  · subst h2; decide
  by_cases h3 : code = 4003
  · subst h3; decide
  by_cases h4 : code = 4004
  · subst h4; decide
  by_cases h5 : code = 1006
  · subst h5; decide
  simp [closurePipeline, closeErrorMessage, onCloseEffects, countReconnects,
    h1, h2, h3, h4, h5]

/-- Claim C9, counterexample: a closure with code 4004 schedules the
navigation-away side effect twice — once from the error callback ("Game not
found") and once from the onClose 4004 branch — not exactly once as claimed. -/
theorem close4004_navigates_twice :
    ¬ countNavs (closurePipeline 4004) = 1 := by decide

/-- Claim C9, amended: a closure with code 4004 produces exactly two
navigation-away side effects and zero reconnect attempts; a closure with the
non-listed code 1011 produces exactly one reconnect attempt, scheduled after
the fixed 3000 ms delay, and no navigation. -/
theorem close_code_4004_and_1011_policy :
    countNavs (closurePipeline 4004) = 2 ∧
    countReconnects (closurePipeline 4004) = 0 ∧
    countReconnects (closurePipeline 1011) = 1 ∧
    countNavs (closurePipeline 1011) = 0 ∧
    closurePipeline 1011 = [.cancelReconnect, .scheduleReconnect 3000] := by
  decide

/-- Claim C5: a completion whose winner list has more than one winner,
arriving while a popup for a different hand is displayed and the viewer is
neither ready nor cashed out, always produces a visible popup and overrides
the displayed result with the new hand's entry. -/
theorem splitpot_override_shows (user : Option CurrentUser) (st : ClientState)
    (cur g : Game) (hr : HandResult) (wi : WinnerInfo)
    (hgame : st.game = some cur)
    (hshow : st.showHandResults = true)
    (hcur : st.currentHandResult = some hr)
    (hwi : g.winnerInfo = some wi)
    (hev : (handJustCompleted cur (mergeSnapshot cur g) ||
            newHandStarted cur (mergeSnapshot cur g)) = true)
    (hsplit : wi.winners.length > 1)
    (hdiff : hr.handNumber ≠ (completionEntry cur (mergeSnapshot cur g) wi).handNumber)
    (hready : viewerReady (findViewer user (mergeSnapshot cur g).players) = false)
    (hcash : viewerCashed (findViewer user (mergeSnapshot cur g).players) = false) :
    (wsMessage user (.snapshot g) st).1.showHandResults = true ∧
    (wsMessage user (.snapshot g) st).1.currentHandResult =
      some (completionEntry cur (mergeSnapshot cur g) wi) ∧
    WsEffect.popup (completionEntry cur (mergeSnapshot cur g) wi) ∈
      (wsMessage user (.snapshot g) st).2 := by
  have hpr : popupResult user st cur g =
      some (completionEntry cur (mergeSnapshot cur g) wi) := by
    rw [popupResult_of_event user st cur g wi hwi hev, hready, hcash, hshow, hcur]
    simp [popupDecision, hdiff]
  rw [wsMessage_snapshot, wsApplySnapshot_eq_some user g st cur _ hgame hpr]
  exact ⟨rfl, rfl, List.mem_cons_self _ _⟩

/-- Viewer of the C5 witness instance. -/
def c5User : CurrentUser := { id := some 4, username := some "dave" }

/-- Player of the C5 witness instance: neither ready nor cashed out. -/
def c5Player : GamePlayer :=
  { id := 30, playerId := 300, userId := 4, username := "dave", stack := 100,
    currentBet := 0, isActive := true, cashedOut := false,
    readyForNextHand := false, cards := .absent }

/-- Two-winner winner info of the C5 witness instance. -/
def c5Wi : WinnerInfo :=
  { winners := [{ playerName := "dave", handName := some "Pair" },
                { playerName := "erin", handName := some "Pair" }],
    potAmount := 40, wtype := "Showdown" }

/-- Local game of the C5 witness instance, hand 4 in progress. -/
def c5Cur : Game :=
  { id := 9, status := "PLAYING", phase := "RIVER", pot := 40, currentBet := 0,
    currentPlayerId := none, handCount := 4, winnerInfo := none,
    bigBlind := 10, players := some [c5Player] }

/-- Inbound snapshot of the C5 witness instance: hand 4 completed split. -/
def c5Inbound : Game :=
  { c5Cur with winnerInfo := some c5Wi, phase := "WAITING_FOR_PLAYERS" }

/-- Currently displayed popup of the C5 witness instance: hand 3. -/
def c5OldHr : HandResult :=
  { winners := [{ playerName := "erin", handName := none }], potAmount := 10,
    wtype := "Showdown", handNumber := 3, allPlayers := [] }

/-- Client state of the C5 witness instance: hand 3 popup showing. -/
def c5State : ClientState :=
  { game := some c5Cur, showHandResults := true, currentHandResult := some c5OldHr }

/-- Claim C5, witness at the concrete instance. -/
theorem splitpot_override_shows_witness :
    (wsMessage (some c5User) (.snapshot c5Inbound) c5State).1.showHandResults = true ∧
    (wsMessage (some c5User) (.snapshot c5Inbound) c5State).1.currentHandResult =
      some (completionEntry c5Cur (mergeSnapshot c5Cur c5Inbound) c5Wi) ∧
    WsEffect.popup (completionEntry c5Cur (mergeSnapshot c5Cur c5Inbound) c5Wi) ∈
      (wsMessage (some c5User) (.snapshot c5Inbound) c5State).2 :=
  splitpot_override_shows (some c5User) c5State c5Cur c5Inbound c5OldHr c5Wi
    rfl rfl rfl rfl (by decide) (by decide) (by decide) (by decide) (by decide)

/-- Claim C6: two consecutive deliveries of the same completed-hand snapshot
— new winner info, single winner, no popup showing, viewer neither ready nor
cashed out — produce exactly one popup: the first delivery shows it, the
second emits no popup at all. -/
theorem popup_at_most_once (user : Option CurrentUser) (st : ClientState)
    (cur g : Game) (wi : WinnerInfo)
    (hgame : st.game = some cur)
    (hshow : st.showHandResults = false)
    (hwi : g.winnerInfo = some wi)
    (hsingle : wi.winners.length = 1)
    (hchanged : cur.winnerInfo ≠ some wi)
    (hready : viewerReady (findViewer user (mergeSnapshot cur g).players) = false)
    (hcash : viewerCashed (findViewer user (mergeSnapshot cur g).players) = false) :
    countPopups (wsMessage user (.snapshot g) st).2 = 1 ∧
    countPopups (wsMessage user (.snapshot g)
      (wsMessage user (.snapshot g) st).1).2 = 0 := by
  have hj : handJustCompleted cur (mergeSnapshot cur g) = true := by
    unfold handJustCompleted
    rw [mergeSnapshot_winnerInfo, hwi]
    have hne : some wi ≠ cur.winnerInfo := fun h => hchanged h.symm
    simp [hne]
  have hev : (handJustCompleted cur (mergeSnapshot cur g) ||
      newHandStarted cur (mergeSnapshot cur g)) = true := by
    rw [hj]; rfl
  have hpr : popupResult user st cur g =
      some (completionEntry cur (mergeSnapshot cur g) wi) := by
    rw [popupResult_of_event user st cur g wi hwi hev, hready, hcash, hshow]
    simp [popupDecision]
  constructor
  · rw [wsMessage_snapshot, wsApplySnapshot_eq_some user g st cur _ hgame hpr]
    simp [countPopups_cons_popup, countPopups_finishedEffects]
  · have h1 : (wsMessage user (.snapshot g) st).1.game =
        some (mergeSnapshot cur g) := by
      rw [wsMessage_snapshot]
      exact wsApplySnapshot_game user g st cur hgame
    have hpr2 : popupResult user (wsMessage user (.snapshot g) st).1
        (mergeSnapshot cur g) g = none := popupResult_self user _ cur g
    have e2 := wsApplySnapshot_eq_none user g (wsMessage user (.snapshot g) st).1
      (mergeSnapshot cur g) h1 hpr2
    rw [wsMessage_snapshot user g ((wsMessage user (.snapshot g) st).1), e2]
    exact countPopups_finishedEffects _

/-- Viewer of the C6 witness instance. -/
def c6User : CurrentUser := { id := some 4, username := some "dave" }

/-- Player of the C6 witness instance. -/
def c6Player : GamePlayer :=
  { id := 31, playerId := 301, userId := 4, username := "dave", stack := 100,
    currentBet := 0, isActive := true, cashedOut := false,
    readyForNextHand := false, cards := .absent }

/-- Single-winner winner info of the C6 witness instance. -/
def c6Wi : WinnerInfo :=
  { winners := [{ playerName := "dave", handName := some "Flush" }],
    potAmount := 25, wtype := "Showdown" }

/-- Local game of the C6 witness instance. -/
def c6Cur : Game :=
  { id := 10, status := "PLAYING", phase := "RIVER", pot := 25, currentBet := 0,
    currentPlayerId := none, handCount := 5, winnerInfo := none,
    bigBlind := 10, players := some [c6Player] }

/-- Inbound completed-hand snapshot of the C6 witness instance. -/
def c6Inbound : Game :=
  { c6Cur with winnerInfo := some c6Wi, phase := "WAITING_FOR_PLAYERS" }

/-- Client state of the C6 witness instance: nothing showing. -/
def c6State : ClientState :=
  { game := some c6Cur, showHandResults := false, currentHandResult := none }

/-- Claim C6, witness at the concrete instance. -/
theorem popup_at_most_once_witness :
    countPopups (wsMessage (some c6User) (.snapshot c6Inbound) c6State).2 = 1 ∧
    countPopups (wsMessage (some c6User) (.snapshot c6Inbound)
      (wsMessage (some c6User) (.snapshot c6Inbound) c6State).1).2 = 0 :=
  popup_at_most_once (some c6User) c6State c6Cur c6Inbound c6Wi
    rfl rfl rfl (by decide) (by decide) (by decide) (by decide)

/-- Viewer of the C7 instance. -/
def c7User : CurrentUser := { id := some 5, username := some "fred" }

/-- Player of the C7 instance: already flagged ready for the next hand. -/
def c7Player : GamePlayer :=
  { id := 40, playerId := 400, userId := 5, username := "fred", stack := 80,
    currentBet := 0, isActive := true, cashedOut := false,
    readyForNextHand := true, cards := .absent }

/-- Two-winner winner info of the C7 instance. -/
def c7Wi : WinnerInfo :=
  { winners := [{ playerName := "fred", handName := none },
                { playerName := "gina", handName := none }],
    potAmount := 60, wtype := "Showdown" }

/-- Local game of the C7 instance. -/
def c7Cur : Game :=
  { id := 11, status := "PLAYING", phase := "RIVER", pot := 60, currentBet := 0,
    currentPlayerId := none, handCount := 6, winnerInfo := none,
    bigBlind := 10, players := some [c7Player] }

/-- Inbound completed split-pot snapshot of the C7 instance. -/
def c7Inbound : Game :=
  { c7Cur with winnerInfo := some c7Wi, phase := "WAITING_FOR_PLAYERS" }

/-- Client state of the C7 instance: no popup showing. -/
def c7State : ClientState :=
  { game := some c7Cur, showHandResults := false, currentHandResult := none }

/-- Claim C7, counterexample: the viewer's ready flag is true in the inbound
snapshot, the completion is a split pot, no popup is showing — yet a popup is
emitted, so the ready/cashed-out suppression does not apply to split-pot
completions when nothing is displayed. -/
theorem splitpot_ignores_ready_flag :
    viewerReady (findViewer (some c7User) (mergeSnapshot c7Cur c7Inbound).players) = true ∧
    0 < countPopups (wsMessage (some c7User) (.snapshot c7Inbound) c7State).2 := by
  decide

/-- Claim C7, amended: on a completion with the viewer ready or cashed out,
a popup is shown exactly when the completed hand has more than one winner and
no popup is currently displayed; in every other case the completion is
suppressed. -/
theorem suppression_except_splitpot (user : Option CurrentUser)
    (st : ClientState) (cur g : Game) (wi : WinnerInfo)
    (hgame : st.game = some cur)
    (hwi : g.winnerInfo = some wi)
    (hev : (handJustCompleted cur (mergeSnapshot cur g) ||
            newHandStarted cur (mergeSnapshot cur g)) = true)
    (hflag : viewerReady (findViewer user (mergeSnapshot cur g).players) = true ∨
             viewerCashed (findViewer user (mergeSnapshot cur g).players) = true) :
    (0 < countPopups (wsMessage user (.snapshot g) st).2) ↔
      (wi.winners.length > 1 ∧ st.showHandResults = false) := by
  have hdec : popupDecision
      (viewerReady (findViewer user (mergeSnapshot cur g).players))
      (viewerCashed (findViewer user (mergeSnapshot cur g).players))
      st.showHandResults st.currentHandResult
      (completionEntry cur (mergeSnapshot cur g) wi) =
      (decide (wi.winners.length > 1) && !st.showHandResults) := by
    rcases hflag with h | h <;> rw [h] <;>
      simp [popupDecision, completionEntry, winnerEntry]
  have key : countPopups (wsMessage user (.snapshot g) st).2 =
      (if (decide (wi.winners.length > 1) && !st.showHandResults) = true
       then 1 else 0) := by
    cases hb : (decide (wi.winners.length > 1) && !st.showHandResults) with
    | true =>
        have hpr : popupResult user st cur g =
            some (completionEntry cur (mergeSnapshot cur g) wi) := by
          rw [popupResult_of_event user st cur g wi hwi hev, hdec, hb]
          rfl
        rw [wsMessage_snapshot, wsApplySnapshot_eq_some user g st cur _ hgame hpr]
        simp [countPopups_cons_popup, countPopups_finishedEffects]
    | false =>
        have hpr : popupResult user st cur g = none := by
          rw [popupResult_of_event user st cur g wi hwi hev, hdec, hb]
          rfl
        rw [wsMessage_snapshot, wsApplySnapshot_eq_none user g st cur hgame hpr]
        simp [countPopups_finishedEffects]
  rw [key]
  cases hsh : st.showHandResults <;>
    by_cases hsp : wi.winners.length > 1 <;> simp [hsp]

/-- Claim C7, witness for the amended statement at the concrete C7 instance. -/
theorem suppression_except_splitpot_witness :
    (0 < countPopups (wsMessage (some c7User) (.snapshot c7Inbound) c7State).2) ↔
      (c7Wi.winners.length > 1 ∧ c7State.showHandResults = false) :=
  suppression_except_splitpot (some c7User) c7State c7Cur c7Inbound c7Wi
    rfl rfl (by decide) (Or.inl (by decide))

/-- Cashed-out player of the C8 instance. -/
def c8Player : GamePlayer :=
  { id := 50, playerId := 500, userId := 6, username := "hank", stack := 0,
    currentBet := 0, isActive := false, cashedOut := true,
    readyForNextHand := false, cards := .absent }

/-- Finished, everyone-cashed-out game of the C8 instance. -/
def c8Cur : Game :=
  { id := 13, status := "FINISHED", phase := "WAITING_FOR_PLAYERS", pot := 0,
    currentBet := 0, currentPlayerId := none, handCount := 8,
    winnerInfo := none, bigBlind := 10, players := some [c8Player] }

/-- Inbound snapshot of the C8 instance: identical to the local state. -/
def c8Inbound : Game := c8Cur

/-- Client state of the C8 instance. -/
def c8State : ClientState :=
  { game := some c8Cur, showHandResults := false, currentHandResult := none }

/-- Claim C8, counterexample: applying the same finished-all-cashed-out
snapshot twice emits the session-ended side effect (completed-game message
and summary navigation) on BOTH applications — the finished check compares
nothing against the previous state — contradicting emit-only-on-first. -/
theorem session_ended_repeats :
    countFinished (wsMessage none (.snapshot c8Inbound) c8State).2 = 1 ∧
    countFinished (wsMessage none (.snapshot c8Inbound)
      (wsMessage none (.snapshot c8Inbound) c8State).1).2 = 1 := by
  decide

/-- Claim C8, amended: applying the same inbound snapshot twice consecutively
emits the HandCompletion popup only on the first application — the second
application detects neither a completed hand nor a new hand and emits no
popup — but the SessionEnded side effect is re-emitted on the second
application exactly when the first application emitted it. -/
theorem reapply_idempotent_amended (user : Option CurrentUser)
    (st : ClientState) (cur g : Game) (hgame : st.game = some cur) :
    handJustCompleted (mergeSnapshot cur g)
      (mergeSnapshot (mergeSnapshot cur g) g) = false ∧
    newHandStarted (mergeSnapshot cur g)
      (mergeSnapshot (mergeSnapshot cur g) g) = false ∧
    countPopups (wsMessage user (.snapshot g)
      (wsMessage user (.snapshot g) st).1).2 = 0 ∧
    countFinished (wsMessage user (.snapshot g)
      (wsMessage user (.snapshot g) st).1).2 =
      countFinished (wsMessage user (.snapshot g) st).2 := by
  have hj : handJustCompleted (mergeSnapshot cur g)
      (mergeSnapshot (mergeSnapshot cur g) g) = false := by
    unfold handJustCompleted
    rw [mergeSnapshot_winnerInfo, mergeSnapshot_winnerInfo]
    cases g.winnerInfo <;> simp
  have hn : newHandStarted (mergeSnapshot cur g)
      (mergeSnapshot (mergeSnapshot cur g) g) = false := by
    unfold newHandStarted
    rw [mergeSnapshot_handCount, mergeSnapshot_handCount]
    simp
  have h1 : (wsMessage user (.snapshot g) st).1.game =
      some (mergeSnapshot cur g) := by
    rw [wsMessage_snapshot]
    exact wsApplySnapshot_game user g st cur hgame
  have hpr2 : popupResult user (wsMessage user (.snapshot g) st).1
      (mergeSnapshot cur g) g = none := popupResult_self user _ cur g
  have e2 := wsApplySnapshot_eq_none user g (wsMessage user (.snapshot g) st).1
    (mergeSnapshot cur g) h1 hpr2
  refine ⟨hj, hn, ?_, ?_⟩
  · rw [wsMessage_snapshot user g ((wsMessage user (.snapshot g) st).1), e2]
    exact countPopups_finishedEffects _
  · rw [wsMessage_snapshot user g ((wsMessage user (.snapshot g) st).1), e2]
    show countFinished (finishedEffects (mergeSnapshot (mergeSnapshot cur g) g)) = _
    rw [finishedEffects_merge]
    cases hp : popupResult user st cur g with
    | some e =>
        rw [wsMessage_snapshot, wsApplySnapshot_eq_some user g st cur e hgame hp]
        show _ = countFinished (WsEffect.popup e :: finishedEffects (mergeSnapshot cur g))
        rw [countFinished_cons_popup, finishedEffects_merge]
    | none =>
        rw [wsMessage_snapshot, wsApplySnapshot_eq_none user g st cur hgame hp]
        show _ = countFinished (finishedEffects (mergeSnapshot cur g))
        rw [finishedEffects_merge]

/-- Claim C8, witness for the amended statement at the concrete C8 instance. -/
theorem reapply_idempotent_witness :
    handJustCompleted (mergeSnapshot c8Cur c8Inbound)
      (mergeSnapshot (mergeSnapshot c8Cur c8Inbound) c8Inbound) = false ∧
    newHandStarted (mergeSnapshot c8Cur c8Inbound)
      (mergeSnapshot (mergeSnapshot c8Cur c8Inbound) c8Inbound) = false ∧
    countPopups (wsMessage none (.snapshot c8Inbound)
      (wsMessage none (.snapshot c8Inbound) c8State).1).2 = 0 ∧
    countFinished (wsMessage none (.snapshot c8Inbound)
      (wsMessage none (.snapshot c8Inbound) c8State).1).2 =
      countFinished (wsMessage none (.snapshot c8Inbound) c8State).2 :=
  reapply_idempotent_amended none c8State c8Cur c8Inbound rfl

/-- Claim C10: with no stored access token, `connectToGameSocket` returns
null without creating any socket and invokes the error callback, when one is
supplied, exactly once with "No authentication token". -/
theorem connect_no_token_guard (wsBaseUrl gameId : String) (hasErrorCb : Bool) :
    connectToGameSocket none wsBaseUrl gameId hasErrorCb =
      { socket := none
        errorCalls := if hasErrorCb then ["No authentication token"] else []
        socketsCreated := 0 } := rfl

end Poker
